import Mathlib

/-!
Verification of `src/services/gasPrice.js` of the token-bridge repository.

Modelling conventions (a shallow embedding of the JavaScript module):
* numeric gas prices are rationals (`ℚ`); JavaScript `null` is `Option.none`;
* the awaited network and chain calls are modelled by passing each call's
  outcome as an explicit parameter (`FetchOutcome`, `ContractResult`);
* the module-level mutable variables `cachedGasPrice`,
  `cachedGasPriceOracleSpeeds` and `fetchGasPriceInterval` form a
  `ModuleState` record that is threaded explicitly;
* a thrown JavaScript exception is an `Except.error`.
-/

set_option autoImplicit false

/-- Parsed JSON body of an oracle response: a JavaScript object mapping
named speed tiers to numeric gas prices (in gwei-like source units). -/
abbrev SpeedTable := List (String × ℚ)

/-- Property access `json[key]` on a parsed oracle response; `none` models
the JavaScript `undefined` returned for an absent key. -/
def lookupSpeed (tbl : SpeedTable) (key : String) : Option ℚ :=
  List.lookup key tbl

/-- Fixed numeric gas-price boundaries, the `GAS_PRICE_BOUNDARIES` record
imported from `../utils/constants` (configuration external to the
translated file, so the boundaries are parameters of the model). -/
structure Boundaries where
  MIN : ℚ
  MAX : ℚ
  deriving DecidableEq

/-- Translation of `gasPriceWithinLimits`: clamp a gas price into the
configured `[MIN, MAX]` range, first branch `gasPrice < MIN`, second
branch `gasPrice > MAX`, else the value unchanged. -/
def gasPriceWithinLimits (B : Boundaries) (gasPrice : ℚ) : ℚ :=
  if gasPrice < B.MIN then B.MIN
  else if gasPrice > B.MAX then B.MAX
  else gasPrice

/-- Model of `Web3Utils.toWei(x.toString(), 'gwei')`: exact multiplication
by 10^9. The library converts a decimal string with at most nine decimal
places, for which the conversion is exact, so on `ℚ` it is plain
multiplication. -/
def toWeiGwei (v : ℚ) : ℚ := v * 1000000000

/-- Outcome of the awaited `fetch(oracleUrl)` and `response.json()` calls
inside `fetchGasPriceFromOracle`: the transport may fail, the body may
fail to parse, or a parsed speed table is obtained. -/
inductive FetchOutcome where
  | networkError (msg : String)
  | parseError (msg : String)
  | ok (json : SpeedTable)
  deriving DecidableEq

/-- Errors that `fetchGasPriceFromOracle` can propagate to its caller:
the two rejected awaits pass through unchanged, and a missing or falsy
speed entry raises the `oracleDataMissing` error thrown by the source. -/
inductive OracleError where
  | networkError (msg : String)
  | parseError (msg : String)
  | oracleDataMissing (msg : String)
  deriving DecidableEq

/-- Message of the error thrown when the oracle response lacks the
configured speed type (source wording, with the contraction expanded). -/
def oracleDataMissingMessage (speedType : String) : String :=
  "Response from Oracle did not include gas price for " ++ speedType ++ " type."

/-- Successful result of `fetchGasPriceFromOracle`: the selected value
converted to wei, plus the full parsed response object. -/
structure OracleFetchResult where
  oracleGasPrice : ℚ
  oracleResponse : SpeedTable
  deriving DecidableEq

/-- Translation of `fetchGasPriceFromOracle(oracleUrl, speedType)`. The
`oracleUrl` argument is consumed by the HTTP GET, modelled here by the
`response` parameter. The JavaScript falsy test `!oracleGasPrice` on the
looked-up JSON number holds exactly when the key is absent (`undefined`)
or its value is `0`. -/
def fetchGasPriceFromOracle (B : Boundaries) (speedType : String)
    (response : FetchOutcome) : Except OracleError OracleFetchResult :=
  match response with
  | .networkError m => .error (.networkError m)
  | .parseError m => .error (.parseError m)
  | .ok json =>
    match lookupSpeed json speedType with
    | none => .error (.oracleDataMissing (oracleDataMissingMessage speedType))
    | some v =>
      if v = 0 then .error (.oracleDataMissing (oracleDataMissingMessage speedType))
      else
        let gasPrice := gasPriceWithinLimits B v
        .ok { oracleGasPrice := toWeiGwei gasPrice, oracleResponse := json }

/-- Outcome of the awaited `bridgeContract.methods.gasPrice().call()`:
either the numeric gas price or a thrown RPC/contract error message. -/
abbrev ContractResult := Except String ℚ

/-- Value returned by `fetchGasPrice`: the pair
`{ gasPrice, oracleGasPriceSpeeds }`, each field `null` (`none`) when no
source provided it this cycle. -/
structure RefreshOutcome where
  gasPrice : Option ℚ
  oracleGasPriceSpeeds : Option SpeedTable
  deriving DecidableEq

/-- Translation of `fetchGasPrice({ bridgeContract, oracleFn })`: both
local variables start `null`; on oracle success both are assigned from
the oracle result; on oracle failure the contract is tried and, on
success, only `gasPrice` is assigned; on double failure both stay
`null`. The awaited calls are passed in as their outcomes. -/
def fetchGasPrice (oracleResult : Except OracleError OracleFetchResult)
    (contractGasPrice : ContractResult) : RefreshOutcome :=
  match oracleResult with
  | .ok r => { gasPrice := some r.oracleGasPrice, oracleGasPriceSpeeds := some r.oracleResponse }
  | .error _ =>
    match contractGasPrice with
    | .ok g => { gasPrice := some g, oracleGasPriceSpeeds := none }
    | .error _ => { gasPrice := none, oracleGasPriceSpeeds := none }

/-- The two bridge-contract handles constructed at module load. -/
inductive BridgeContract where
  | homeBridge
  | foreignBridge
  deriving DecidableEq

/-- Description of the repeating task installed by `setIntervalAndRun`
inside `start`: which bridge contract, oracle URL and speed type the
scheduled closure captures, and at which interval it repeats. -/
structure RefreshTask where
  bridgeContract : BridgeContract
  oracleUrl : String
  speedType : String
  updateInterval : ℚ
  deriving DecidableEq

/-- The module-level mutable variables of `gasPrice.js`:
`cachedGasPrice`, `cachedGasPriceOracleSpeeds` (both initially `null`)
and the timer handle `fetchGasPriceInterval` (`none` when no refresh
task is scheduled). -/
structure ModuleState where
  cachedGasPrice : Option ℚ
  cachedGasPriceOracleSpeeds : Option SpeedTable
  fetchGasPriceInterval : Option RefreshTask
  deriving DecidableEq

/-- Module state at load time: all three variables `null`. -/
def initialModuleState : ModuleState :=
  { cachedGasPrice := none, cachedGasPriceOracleSpeeds := none,
    fetchGasPriceInterval := none }

/-- The environment configuration destructured from `process.env` at
module load, together with `DEFAULT_UPDATE_INTERVAL` from
`../utils/constants`. Fallback gas prices are numeric and present (the
deployment provides them); an update interval is `none` when its
variable is unset, in which case `||` picks the default (the variable,
when set, is a non-empty string and hence truthy). -/
structure EnvConfig where
  HOME_GAS_PRICE_FALLBACK : ℚ
  FOREIGN_GAS_PRICE_FALLBACK : ℚ
  HOME_GAS_PRICE_ORACLE_URL : String
  FOREIGN_GAS_PRICE_ORACLE_URL : String
  HOME_GAS_PRICE_SPEED_TYPE : String
  FOREIGN_GAS_PRICE_SPEED_TYPE : String
  HOME_GAS_PRICE_UPDATE_INTERVAL : Option ℚ
  FOREIGN_GAS_PRICE_UPDATE_INTERVAL : Option ℚ
  DEFAULT_UPDATE_INTERVAL : ℚ
  deriving DecidableEq

/-- Error thrown by `start` for a chainId other than home or foreign. -/
inductive StartError where
  | unrecognizedChain (chainId : String)
  deriving DecidableEq

/-- Translation of `start(chainId)`. The first statement
`clearInterval(fetchGasPriceInterval)` cancels any scheduled task in
every branch; then the home and foreign branches set `cachedGasPrice` to
the configured fallback and install a new refresh task via
`setIntervalAndRun`, while any other chainId throws `Unrecognized
chainId` after the clear, leaving the caches untouched and scheduling
nothing. The returned state reflects all mutations up to the return or
throw. -/
def start (cfg : EnvConfig) (st : ModuleState) (chainId : String) :
    ModuleState × Except StartError Unit :=
  let st0 : ModuleState := { st with fetchGasPriceInterval := none }
  if chainId = "home" then
    ({ st0 with
        cachedGasPrice := some cfg.HOME_GAS_PRICE_FALLBACK,
        fetchGasPriceInterval := some
          { bridgeContract := .homeBridge,
            oracleUrl := cfg.HOME_GAS_PRICE_ORACLE_URL,
            speedType := cfg.HOME_GAS_PRICE_SPEED_TYPE,
            updateInterval :=
              cfg.HOME_GAS_PRICE_UPDATE_INTERVAL.getD cfg.DEFAULT_UPDATE_INTERVAL } },
      .ok ())
  else if chainId = "foreign" then
    ({ st0 with
        cachedGasPrice := some cfg.FOREIGN_GAS_PRICE_FALLBACK,
        fetchGasPriceInterval := some
          { bridgeContract := .foreignBridge,
            oracleUrl := cfg.FOREIGN_GAS_PRICE_ORACLE_URL,
            speedType := cfg.FOREIGN_GAS_PRICE_SPEED_TYPE,
            updateInterval :=
              cfg.FOREIGN_GAS_PRICE_UPDATE_INTERVAL.getD cfg.DEFAULT_UPDATE_INTERVAL } },
      .ok ())
  else
    (st0, .error (.unrecognizedChain chainId))

/-- JavaScript `x || y` as used in the two cache assignments of the
refresh callback. In the source, `x` is either `null` (falsy) or a value
produced by a successful fetch — a non-empty decimal string from
`toWei`/the contract call, or the parsed response object — and every
such value is truthy, so the left operand wins exactly when it is
non-null. -/
def jsOrOption {α : Type} (x y : Option α) : Option α :=
  match x with
  | some v => some v
  | none => y

/-- One execution of the closure scheduled by `start`: apply a refresh
outcome to the module state with
`cachedGasPrice = gasPrice || cachedGasPrice` and
`cachedGasPriceOracleSpeeds = oracleGasPriceSpeeds || cachedGasPriceOracleSpeeds`. -/
def refreshCycle (st : ModuleState) (outcome : RefreshOutcome) : ModuleState :=
  { st with
    cachedGasPrice := jsOrOption outcome.gasPrice st.cachedGasPrice,
    cachedGasPriceOracleSpeeds :=
      jsOrOption outcome.oracleGasPriceSpeeds st.cachedGasPriceOracleSpeeds }

/-- Outcomes of one cycle's two awaited source calls: the oracle fetch
and the contract query. -/
abbrev CycleInput := Except OracleError OracleFetchResult × ContractResult

/-- A sequence of refresh cycles applied to the module state, one
`refreshCycle` of `fetchGasPrice` per element. -/
def runCycles (st : ModuleState) (inputs : List CycleInput) : ModuleState :=
  inputs.foldl (fun s p => refreshCycle s (fetchGasPrice p.1 p.2)) st

/-- JavaScript values flowing through `processGasPriceOptions`: `null`,
a number, or a string. -/
inductive JSVal where
  | nullV
  | num (q : ℚ)
  | str (s : String)
  deriving DecidableEq

/-- JavaScript truthiness on `JSVal`: `null` is falsy, a number is falsy
exactly when it is `0`, a string exactly when it is empty. -/
def JSVal.truthy : JSVal → Bool
  | .nullV => false
  | .num q => q != 0
  | .str s => s != ""

/-- JavaScript property access coerces the key to a string; for the
string keys used by speed requests this is the identity, and non-string
keys render via `toString`. -/
def JSVal.asKey : JSVal → String
  | .str s => s
  | .num q => toString q
  | .nullV => "null"

/-- The cached gas price as the JavaScript value returned by the lookup
path: `null` before initialization, otherwise the cached number. -/
def ofCachedGasPrice : Option ℚ → JSVal
  | none => .nullV
  | some q => .num q

/-- The `options` argument of `processGasPriceOptions`: an object with
`type` and `value` properties (absent properties are the falsy empty
string and `null` respectively). -/
structure GasPriceOptions where
  type : String
  value : JSVal
  deriving DecidableEq

/-- Modelled from the spec: `GAS_PRICE_OPTIONS.GAS_PRICE` from
`../utils/constants` is not under `src/`; section 6 of the spec types
the request as `{type: "gasPrice"|"speed", value}`. -/
def GAS_PRICE_OPTIONS_GAS_PRICE : String := "gasPrice"

/-- Modelled from the spec: `GAS_PRICE_OPTIONS.SPEED` from
`../utils/constants` is not under `src/`; section 6 of the spec types
the request as `{type: "gasPrice"|"speed", value}`. -/
def GAS_PRICE_OPTIONS_SPEED : String := "speed"

/-- A thrown JavaScript runtime error in the lookup path: reading a
property of `null` (`cachedGasPriceOracleSpeeds[options.value]` while
the table is still `null`) throws a TypeError. -/
inductive EvalError where
  | typeError
  deriving DecidableEq

/-- Translation of
`processGasPriceOptions({ options, cachedGasPrice, cachedGasPriceOracleSpeeds })`:
`gasPrice` starts as the cached value; when `options`, `options.type`
and `options.value` are all truthy, a `gasPrice`-typed request returns
`options.value` directly, and a `speed`-typed request indexes the cached
speed table (throwing a TypeError when that table is `null`) and uses
the ternary `speedOption ? toWei(speedOption, gwei) : cachedGasPrice`. -/
def processGasPriceOptions (cachedGasPrice : Option ℚ)
    (cachedGasPriceOracleSpeeds : Option SpeedTable)
    (options : Option GasPriceOptions) : Except EvalError JSVal :=
  let gasPrice := ofCachedGasPrice cachedGasPrice
  match options with
  | none => .ok gasPrice
  | some opts =>
    if (opts.type != "") && opts.value.truthy then
      if opts.type = GAS_PRICE_OPTIONS_GAS_PRICE then
        .ok opts.value
      else if opts.type = GAS_PRICE_OPTIONS_SPEED then
        match cachedGasPriceOracleSpeeds with
        | none => .error .typeError
        | some tbl =>
          match lookupSpeed tbl opts.value.asKey with
          | some speedOption =>
            .ok (if speedOption != 0 then .num (toWeiGwei speedOption)
                 else ofCachedGasPrice cachedGasPrice)
          | none => .ok (ofCachedGasPrice cachedGasPrice)
      else .ok gasPrice
    else .ok gasPrice

/-- Translation of `getPrice(options)`: delegate to
`processGasPriceOptions` on the current module state. -/
def getPrice (st : ModuleState) (options : Option GasPriceOptions) :
    Except EvalError JSVal :=
  processGasPriceOptions st.cachedGasPrice st.cachedGasPriceOracleSpeeds options

/-- State-passing form of `getPrice`: the source function reads the two
cache variables and assigns no module variable, so the translated state
comes back unchanged alongside the result. -/
def getPriceRun (st : ModuleState) (options : Option GasPriceOptions) :
    ModuleState × Except EvalError JSVal :=
  (st, getPrice st options)

/-- Whether an `Except` value is a success. -/
def exceptIsOk {ε α : Type} : Except ε α → Bool
  | .ok _ => true
  | .error _ => false

/-- Sample environment configuration used to instantiate theorems with
hypotheses at concrete inputs. -/
def cfgExample : EnvConfig :=
  { HOME_GAS_PRICE_FALLBACK := 1000000000,
    FOREIGN_GAS_PRICE_FALLBACK := 10000000000,
    HOME_GAS_PRICE_ORACLE_URL := "https://gasprice.home.example",
    FOREIGN_GAS_PRICE_ORACLE_URL := "https://gasprice.foreign.example",
    HOME_GAS_PRICE_SPEED_TYPE := "standard",
    FOREIGN_GAS_PRICE_SPEED_TYPE := "standard",
    HOME_GAS_PRICE_UPDATE_INTERVAL := none,
    FOREIGN_GAS_PRICE_UPDATE_INTERVAL := none,
    DEFAULT_UPDATE_INTERVAL := 600000 }

/-- The chainId strings accepted by `start`, and sample rejected input. -/
def chainHome : String := "home"

/-- The foreign chainId string. -/
def chainForeign : String := "foreign"

/-- A chainId `start` does not recognise. -/
def chainUnknown : String := "unknown"

/-- Sample speed key present in the sample oracle responses. -/
def speedKeyFast : String := "fast"

/-- Sample oracle response containing only the fast tier. -/
def jsonFast50 : SpeedTable := [("fast", 50)]

/-- Sample oracle response lacking the fast tier. -/
def jsonSlow10 : SpeedTable := [("slow", 10)]

/-- Sample transport-failure message. -/
def msgFetchFailed : String := "fetch failed"

/-- Sample RPC-failure message. -/
def msgRpcFailed : String := "connection refused"

/-- Sample oracle failure. -/
def oracleDown : Except OracleError OracleFetchResult :=
  .error (.networkError msgFetchFailed)

/-- Sample contract failure. -/
def contractDown : ContractResult := .error msgRpcFailed

/-- Helper: a refresh cycle whose outcome has a present gas price keeps
the cache set, and one with an absent gas price keeps the previous
cached value, so a set cache stays set. -/
theorem refreshCycle_isSome (s : ModuleState) (h : s.cachedGasPrice.isSome = true)
    (out : RefreshOutcome) : (refreshCycle s out).cachedGasPrice.isSome = true := by
  cases hg : out.gasPrice <;> simp [refreshCycle, jsOrOption, hg, h]

/-- Helper: a set cache stays set across any sequence of refresh cycles. -/
theorem runCycles_isSome (s : ModuleState) (h : s.cachedGasPrice.isSome = true)
    (inputs : List CycleInput) : (runCycles s inputs).cachedGasPrice.isSome = true := by
  induction inputs generalizing s with
  | nil => exact h
  | cons p rest ih =>
    exact ih (refreshCycle s (fetchGasPrice p.1 p.2))
      (refreshCycle_isSome s h (fetchGasPrice p.1 p.2))

/-- Helper: applying the empty refresh outcome changes nothing. -/
theorem refreshCycle_none_eq (s : ModuleState) :
    refreshCycle s { gasPrice := none, oracleGasPriceSpeeds := none } = s := by
  cases s
  rfl

/-- Sample cache state holding the current value 5 and no speed table. -/
def stCacheFive : ModuleState :=
  { cachedGasPrice := some 5, cachedGasPriceOracleSpeeds := none,
    fetchGasPriceInterval := none }

/-- Sample cache state equal to stCacheFive on both cached fields but
holding a scheduled refresh task. -/
def stCacheFiveTask : ModuleState :=
  { stCacheFive with
    fetchGasPriceInterval := some
      { bridgeContract := .homeBridge,
        oracleUrl := cfgExample.HOME_GAS_PRICE_ORACLE_URL,
        speedType := cfgExample.HOME_GAS_PRICE_SPEED_TYPE,
        updateInterval := 600000 } }

/-- C9: gasPriceWithinLimits clamps: for every value, a value below MIN
yields MIN, a value above MAX yields MAX, and a value within the range
is returned unchanged, assuming MIN is at most MAX; the function is a
pure total function by construction. -/
theorem gasPriceWithinLimits_clamps (B : Boundaries) (v : ℚ) (hB : B.MIN ≤ B.MAX) :
    (v < B.MIN → gasPriceWithinLimits B v = B.MIN) ∧
    (v > B.MAX → gasPriceWithinLimits B v = B.MAX) ∧
    (B.MIN ≤ v → v ≤ B.MAX → gasPriceWithinLimits B v = v) := by
  unfold gasPriceWithinLimits
  refine ⟨fun h => ?_, fun h => ?_, fun h1 h2 => ?_⟩
  · rw [if_pos h]
  · rw [if_neg (not_lt.mpr (le_trans hB (le_of_lt h))), if_pos h]
  · rw [if_neg (not_lt.mpr h1), if_neg (not_lt.mpr h2)]

/-- Concrete instantiation of the clamp theorem at MIN 1, MAX 100,
value 0: the result is MIN. -/
theorem gasPriceWithinLimits_clamps_witness :
    gasPriceWithinLimits { MIN := 1, MAX := 100 } 0 = 1 :=
  (gasPriceWithinLimits_clamps { MIN := 1, MAX := 100 } 0 (by norm_num)).1 (by norm_num)

/-- C1: once start has succeeded and so initialised cachedGasPrice to the
configured fallback, the cached current value is some value after every
sequence of refresh cycles; and a single refresh cycle changes
cachedGasPrice only when the primary or the fallback fetch succeeded, so
the cache is never overwritten with an unset result. -/
theorem cachedGasPrice_never_unset (cfg : EnvConfig) (st : ModuleState) (chainId : String)
    (hstart : exceptIsOk (start cfg st chainId).2 = true) :
    (∀ inputs : List CycleInput,
        (runCycles (start cfg st chainId).1 inputs).cachedGasPrice.isSome = true) ∧
    (∀ (s : ModuleState) (o : Except OracleError OracleFetchResult) (c : ContractResult),
        (refreshCycle s (fetchGasPrice o c)).cachedGasPrice ≠ s.cachedGasPrice →
          exceptIsOk o = true ∨ exceptIsOk c = true) := by
  constructor
  · intro inputs
    apply runCycles_isSome
    by_cases h1 : chainId = "home"
    · simp [start, h1]
    · by_cases h2 : chainId = "foreign"
      · simp [start, h1, h2]
      · simp [start, h1, h2, exceptIsOk] at hstart
  · intro s o c hne
    cases o with
    | ok r => exact Or.inl rfl
    | error e =>
      cases c with
      | ok g => exact Or.inr rfl
      | error m =>
        exact absurd (congrArg ModuleState.cachedGasPrice (refreshCycle_none_eq s)) hne

/-- Concrete instantiation: start on home succeeds, and after one cycle
with both sources failing the cached value is still set. -/
theorem cachedGasPrice_never_unset_witness :
    exceptIsOk (start cfgExample initialModuleState chainHome).2 = true ∧
    (runCycles (start cfgExample initialModuleState chainHome).1
        [(oracleDown, contractDown)]).cachedGasPrice.isSome = true :=
  ⟨rfl, (cachedGasPrice_never_unset cfgExample initialModuleState chainHome rfl).1 _⟩

/-- C2: when both the primary oracle fetch and the fallback chain query
fail, fetchGasPrice returns the outcome with both fields absent, and
applying that outcome in a refresh cycle leaves the module state, hence
cachedGasPrice and cachedGasPriceOracleSpeeds, unchanged. -/
theorem fetchGasPrice_total_failure (o : Except OracleError OracleFetchResult)
    (c : ContractResult) (st : ModuleState)
    (ho : exceptIsOk o = false) (hc : exceptIsOk c = false) :
    fetchGasPrice o c = { gasPrice := none, oracleGasPriceSpeeds := none } ∧
    refreshCycle st (fetchGasPrice o c) = st := by
  cases o with
  | ok r => simp [exceptIsOk] at ho
  | error e =>
    cases c with
    | ok g => simp [exceptIsOk] at hc
    | error m => exact ⟨rfl, refreshCycle_none_eq st⟩

/-- Concrete instantiation of the total-failure theorem. -/
theorem fetchGasPrice_total_failure_witness :
    fetchGasPrice oracleDown contractDown =
      { gasPrice := none, oracleGasPriceSpeeds := none } ∧
    refreshCycle stCacheFive (fetchGasPrice oracleDown contractDown) = stCacheFive :=
  fetchGasPrice_total_failure oracleDown contractDown stCacheFive rfl rfl

/-- C3: when the primary oracle fetch fails and the fallback chain query
succeeds with value v, fetchGasPrice returns exactly v as the new gas
price (no conversion, no clamping) with the speed table absent, and the
refresh cycle sets cachedGasPrice to v while leaving
cachedGasPriceOracleSpeeds unchanged. -/
theorem fetchGasPrice_fallback_success (e : OracleError) (v : ℚ) (st : ModuleState) :
    fetchGasPrice (.error e) (.ok v) =
      { gasPrice := some v, oracleGasPriceSpeeds := none } ∧
    (refreshCycle st (fetchGasPrice (.error e) (.ok v))).cachedGasPrice = some v ∧
    (refreshCycle st (fetchGasPrice (.error e) (.ok v))).cachedGasPriceOracleSpeeds =
      st.cachedGasPriceOracleSpeeds :=
  ⟨rfl, rfl, rfl⟩

/-- C5: for a chainId other than home or foreign, start throws the
unrecognized-chain error, leaves cachedGasPrice and
cachedGasPriceOracleSpeeds unchanged, and schedules no refresh task. -/
theorem start_unrecognized_chain (cfg : EnvConfig) (st : ModuleState) (chainId : String)
    (h1 : chainId ≠ "home") (h2 : chainId ≠ "foreign") :
    (start cfg st chainId).2 = .error (.unrecognizedChain chainId) ∧
    (start cfg st chainId).1.cachedGasPrice = st.cachedGasPrice ∧
    (start cfg st chainId).1.cachedGasPriceOracleSpeeds =
      st.cachedGasPriceOracleSpeeds ∧
    (start cfg st chainId).1.fetchGasPriceInterval = none := by
  simp [start, h1, h2]

/-- Concrete instantiation of the unrecognized-chain theorem. -/
theorem start_unrecognized_chain_witness :
    (start cfgExample stCacheFive chainUnknown).2 =
      .error (.unrecognizedChain chainUnknown) ∧
    (start cfgExample stCacheFive chainUnknown).1.cachedGasPrice =
      stCacheFive.cachedGasPrice ∧
    (start cfgExample stCacheFive chainUnknown).1.cachedGasPriceOracleSpeeds =
      stCacheFive.cachedGasPriceOracleSpeeds ∧
    (start cfgExample stCacheFive chainUnknown).1.fetchGasPriceInterval = none :=
  start_unrecognized_chain cfgExample stCacheFive chainUnknown (by decide) (by decide)

/-- C6: on an oracle response whose configured speed key holds a truthy
numeric value v, fetchGasPriceFromOracle returns the clamp of v (applied
before conversion) multiplied exactly by 10^9, together with the full
parsed mapping unconverted. -/
theorem fetchGasPriceFromOracle_success (B : Boundaries) (speedType : String)
    (json : SpeedTable) (v : ℚ)
    (hlook : lookupSpeed json speedType = some v) (hv : v ≠ 0) :
    fetchGasPriceFromOracle B speedType (.ok json) =
      .ok { oracleGasPrice := gasPriceWithinLimits B v * 1000000000,
            oracleResponse := json } := by
  simp [fetchGasPriceFromOracle, hlook, hv, toWeiGwei]

/-- Concrete instantiation: oracle JSON with fast = 50 and bounds
[1, 100] yields 50 gwei converted to 50000000000 wei and the original
table. -/
theorem fetchGasPriceFromOracle_success_witness :
    fetchGasPriceFromOracle { MIN := 1, MAX := 100 } speedKeyFast (.ok jsonFast50) =
      .ok { oracleGasPrice := 50000000000, oracleResponse := jsonFast50 } := by
  have h := fetchGasPriceFromOracle_success { MIN := 1, MAX := 100 } speedKeyFast
    jsonFast50 50 (by decide) (by norm_num)
  norm_num [gasPriceWithinLimits] at h
  exact h

/-- C7: on an oracle response whose configured speed key is absent or
maps to the falsy value 0, fetchGasPriceFromOracle fails with the
oracle-data-missing error whose message names the missing speed key (no
default is substituted). -/
theorem fetchGasPriceFromOracle_missing (B : Boundaries) (speedType : String)
    (json : SpeedTable)
    (h : lookupSpeed json speedType = none ∨ lookupSpeed json speedType = some 0) :
    fetchGasPriceFromOracle B speedType (.ok json) =
      .error (.oracleDataMissing (oracleDataMissingMessage speedType)) ∧
    oracleDataMissingMessage speedType =
      "Response from Oracle did not include gas price for " ++ speedType ++ " type." := by
  refine ⟨?_, rfl⟩
  rcases h with h | h <;> simp [fetchGasPriceFromOracle, h]

/-- Concrete instantiation: oracle JSON with only slow = 10 queried for
the fast key fails with the missing-data error naming fast. -/
theorem fetchGasPriceFromOracle_missing_witness :
    fetchGasPriceFromOracle { MIN := 1, MAX := 100 } speedKeyFast (.ok jsonSlow10) =
      .error (.oracleDataMissing (oracleDataMissingMessage speedKeyFast)) :=
  (fetchGasPriceFromOracle_missing { MIN := 1, MAX := 100 } speedKeyFast jsonSlow10
    (Or.inl (by decide))).1

/-- C8 counterexample: with cached value 5, a gasPrice-typed request
carrying the falsy value 0 does not return 0: the truthy guard on
options.value fails and getPrice returns the cached 5 instead. -/
theorem getPrice_explicit_zero_cex :
    getPrice stCacheFive
        (some { type := GAS_PRICE_OPTIONS_GAS_PRICE, value := .num 0 }) ≠
      Except.ok (JSVal.num 0) := by
  intro h
  have h5 : getPrice stCacheFive
      (some { type := GAS_PRICE_OPTIONS_GAS_PRICE, value := .num 0 }) =
      Except.ok (JSVal.num 5) := rfl
  rw [h5] at h
  exact absurd (JSVal.num.inj (Except.ok.inj h)) (by norm_num)

/-- C8 amended: for every gasPrice-typed request whose value is truthy,
getPrice returns that value verbatim, bypassing cache and bounds,
regardless of the cache state. -/
theorem getPrice_explicit_value_truthy (st : ModuleState) (v : JSVal)
    (hv : v.truthy = true) :
    getPrice st (some { type := GAS_PRICE_OPTIONS_GAS_PRICE, value := v }) =
      Except.ok v := by
  have htype : ((GAS_PRICE_OPTIONS_GAS_PRICE : String) != "") = true := by decide
  unfold getPrice processGasPriceOptions
  simp [htype, hv]

/-- Concrete instantiation: an explicit value 99 is returned verbatim
while the cache holds 5. -/
theorem getPrice_explicit_value_truthy_witness :
    getPrice stCacheFive
        (some { type := GAS_PRICE_OPTIONS_GAS_PRICE, value := .num 99 }) =
      Except.ok (JSVal.num 99) :=
  getPrice_explicit_value_truthy stCacheFive (.num 99) (by decide)

/-- C4: getPrice is not total on reachable states. After start on home
succeeds and the first refresh cycle fails on both sources, the speed
table is still null, and a speed-typed request indexes null and throws
(the modelled TypeError) instead of returning a numeric value. -/
theorem getPrice_speed_request_throws :
    (start cfgExample initialModuleState chainHome).2 = Except.ok () ∧
    getPrice (runCycles (start cfgExample initialModuleState chainHome).1
        [(oracleDown, contractDown)])
      (some { type := GAS_PRICE_OPTIONS_SPEED, value := .str speedKeyFast }) =
      Except.error EvalError.typeError :=
  ⟨rfl, rfl⟩

/-- C10: the lookup path is read-only and deterministic: getPrice run on
the module state returns the state (hence both cached fields and every
speed-table entry) unchanged, and the result depends only on the two
cached fields, so two calls on states agreeing on those fields return
equal results. -/
theorem getPrice_read_only (st1 st2 : ModuleState) (options : Option GasPriceOptions)
    (hv : st1.cachedGasPrice = st2.cachedGasPrice)
    (hs : st1.cachedGasPriceOracleSpeeds = st2.cachedGasPriceOracleSpeeds) :
    (getPriceRun st1 options).1 = st1 ∧
    (getPriceRun st1 options).1.cachedGasPriceOracleSpeeds =
      st1.cachedGasPriceOracleSpeeds ∧
    getPrice st1 options = getPrice st2 options := by
  refine ⟨rfl, rfl, ?_⟩
  unfold getPrice
  rw [hv, hs]

/-- Concrete instantiation: two states equal on the cached fields but
differing on the scheduled task give the same lookup result, and the
state comes back unchanged. -/
theorem getPrice_read_only_witness :
    (getPriceRun stCacheFive none).1 = stCacheFive ∧
    (getPriceRun stCacheFive none).1.cachedGasPriceOracleSpeeds =
      stCacheFive.cachedGasPriceOracleSpeeds ∧
    getPrice stCacheFive none = getPrice stCacheFiveTask none :=
  getPrice_read_only stCacheFive stCacheFiveTask none rfl rfl
